import Mathlib

/-!
Verification development for the picture-book generation service
(`src/services/geminiService.ts`).  The service layer is embedded shallowly:
provider calls are abstracted as oracles mapping attempt indices to outcomes,
and the retry loops are modelled as fuel-indexed recursions that record the
attempts made and the backoff sleeps performed.  `JSON.parse` and the loose
equality `parsed?.error?.code == 503` used by the retryable-error classifier
are modelled by an executable JSON parser and an executable embedding of the
relevant ECMAScript conversions.
-/

set_option linter.unusedVariables false
set_option linter.unnecessarySeqFocus false

namespace Gemini

/-- A decimal number value `mant * 10 ^ exp10`, the exact value of a JSON or
ECMAScript numeric literal. -/
structure JNum where
  mant : Int
  exp10 : Int
deriving DecidableEq

instance (n : Nat) : OfNat JNum n := ⟨⟨n, 0⟩⟩

/-- Whether the number denotes exactly 503 (`mant * 10 ^ exp10 = 503` as
rationals, decided over the integers). -/
def jnumEq503 (n : JNum) : Bool :=
  if 0 ≤ n.exp10 then n.mant * (10 : Int) ^ n.exp10.toNat == 503
  else n.mant == 503 * (10 : Int) ^ (-n.exp10).toNat

/-- The integer denoted by the number, if it is integral. -/
def jnumToInt (n : JNum) : Option Int :=
  if 0 ≤ n.exp10 then some (n.mant * (10 : Int) ^ n.exp10.toNat)
  else
    let d := (10 : Int) ^ (-n.exp10).toNat
    if n.mant % d == 0 then some (n.mant / d) else none

/-- JSON values, as produced by `JSON.parse`.  Numbers are modelled exactly as
decimal mantissa/exponent pairs. -/
inductive Json where
  | null
  | bool (b : Bool)
  | num (q : JNum)
  | str (s : String)
  | arr (elems : List Json)
  | obj (fields : List (String × Json))

/-- Skips JSON whitespace (space, tab, line feed, carriage return). -/
def skipWs : List Char → List Char
  | c :: cs => if c == ' ' || c == '\t' || c == '\n' || c == '\r' then skipWs cs else c :: cs
  | [] => []

/-- Value of a hexadecimal digit character. -/
def hexVal (c : Char) : Option Nat :=
  if '0' ≤ c ∧ c ≤ '9' then some (c.toNat - '0'.toNat)
  else if 'a' ≤ c ∧ c ≤ 'f' then some (c.toNat - 'a'.toNat + 10)
  else if 'A' ≤ c ∧ c ≤ 'F' then some (c.toNat - 'A'.toNat + 10)
  else none

/-- Translation of a simple JSON escape character (the `\u` escape is handled
separately). -/
def escChar : Char → Option Char
  | '"' => some '"'
  | '\\' => some '\\'
  | '/' => some '/'
  | 'b' => some '\x08'
  | 'f' => some '\x0c'
  | 'n' => some '\n'
  | 'r' => some '\r'
  | 't' => some '\t'
  | _ => none

/-- Parses the body of a JSON string literal (the opening quote already
consumed), handling the JSON escape sequences and rejecting raw control
characters. -/
def parseStringAux : List Char → List Char → Option (String × List Char)
  | acc, '"' :: rest => some (String.mk acc.reverse, rest)
  | acc, '\\' :: 'u' :: a :: b :: c :: d :: rest2 =>
    match hexVal a, hexVal b, hexVal c, hexVal d with
    | some x, some y, some z, some w =>
      parseStringAux (Char.ofNat (((x * 16 + y) * 16 + z) * 16 + w) :: acc) rest2
    | _, _, _, _ => none
  | acc, '\\' :: e :: rest =>
    match escChar e with
    | some ch => parseStringAux (ch :: acc) rest
    | none => none
  | acc, ch :: rest => if ch.toNat < 0x20 then none else parseStringAux (ch :: acc) rest
  | _, [] => none

/-- Numeric value of a list of decimal digit characters. -/
def digitsToNat (ds : List Char) : Nat :=
  ds.foldl (fun n c => n * 10 + (c.toNat - '0'.toNat)) 0

/-- Parses an optional exponent part `(e|E)(+|-)?[0-9]+`; yields exponent 0
when the part is absent. -/
def parseExpPart (cs : List Char) : Option (Int × List Char) :=
  match cs with
  | c :: t =>
    if c == 'e' || c == 'E' then
      let st : Bool × List Char :=
        match t with
        | '+' :: r => (false, r)
        | '-' :: r => (true, r)
        | _ => (false, t)
      let ds := st.2.takeWhile Char.isDigit
      let t3 := st.2.dropWhile Char.isDigit
      if ds.isEmpty then none
      else some (if st.1 then -(digitsToNat ds : Int) else (digitsToNat ds : Int), t3)
    else some (0, cs)
  | [] => some (0, cs)

/-- Parses an optional JSON fraction part `.[0-9]+`; yields its digit list
(empty when absent). -/
def parseFracPart (cs : List Char) : Option (List Char × List Char) :=
  match cs with
  | '.' :: t =>
    let ds := t.takeWhile Char.isDigit
    let t2 := t.dropWhile Char.isDigit
    if ds.isEmpty then none
    else some (ds, t2)
  | _ => some ([], cs)

/-- Parses a JSON number literal `-?(0|[1-9][0-9]*)(.[0-9]+)?((e|E)(+|-)?[0-9]+)?`.
A leading zero consumes only itself, so inputs like `01` leave trailing
characters and are rejected at a higher level, as `JSON.parse` rejects them. -/
def parseNumber (cs : List Char) : Option (JNum × List Char) :=
  let st : Bool × List Char := match cs with | '-' :: t => (true, t) | _ => (false, cs)
  match st.2 with
  | c :: _ =>
    if c.isDigit then
      let ip : List Char × List Char :=
        match st.2 with
        | '0' :: t => (['0'], t)
        | l => (l.takeWhile Char.isDigit, l.dropWhile Char.isDigit)
      match parseFracPart ip.2 with
      | none => none
      | some (fds, rest2) =>
        match parseExpPart rest2 with
        | none => none
        | some (e, rest3) =>
          let mag : Nat := digitsToNat (ip.1 ++ fds)
          let mant : Int := if st.1 then -(mag : Int) else (mag : Int)
          some (⟨mant, e - fds.length⟩, rest3)
    else none
  | [] => none

mutual

/-- Parses one JSON value (fuel-indexed; the fuel bounds the total number of
nested parsing steps and is chosen large enough at the top level). -/
def parseValue : Nat → List Char → Option (Json × List Char)
  | 0, _ => none
  | fuel + 1, cs =>
    match skipWs cs with
    | 'n' :: 'u' :: 'l' :: 'l' :: rest => some (.null, rest)
    | 't' :: 'r' :: 'u' :: 'e' :: rest => some (.bool true, rest)
    | 'f' :: 'a' :: 'l' :: 's' :: 'e' :: rest => some (.bool false, rest)
    | '"' :: rest =>
      match parseStringAux [] rest with
      | some (s, rest2) => some (.str s, rest2)
      | none => none
    | '[' :: rest =>
      match skipWs rest with
      | ']' :: rest2 => some (.arr [], rest2)
      | cs2 => parseArrayItems fuel [] cs2
    | '\x7b' :: rest =>
      match skipWs rest with
      | '\x7d' :: rest2 => some (.obj [], rest2)
      | cs2 => parseObjItems fuel [] cs2
    | cs2 =>
      match parseNumber cs2 with
      | some (q, rest) => some (.num q, rest)
      | none => none

/-- Parses the comma-separated items of a JSON array (after `[`). -/
def parseArrayItems : Nat → List Json → List Char → Option (Json × List Char)
  | 0, _, _ => none
  | fuel + 1, acc, cs =>
    match parseValue fuel cs with
    | none => none
    | some (v, rest) =>
      match skipWs rest with
      | ',' :: rest2 => parseArrayItems fuel (v :: acc) rest2
      | ']' :: rest2 => some (.arr (v :: acc).reverse, rest2)
      | _ => none

/-- Parses the comma-separated members of a JSON object (after the opening
brace); later duplicate keys are kept in order and resolved at lookup time,
matching the last-wins behaviour of `JSON.parse`. -/
def parseObjItems : Nat → List (String × Json) → List Char → Option (Json × List Char)
  | 0, _, _ => none
  | fuel + 1, acc, cs =>
    match skipWs cs with
    | '"' :: rest =>
      match parseStringAux [] rest with
      | none => none
      | some (key, rest2) =>
        match skipWs rest2 with
        | ':' :: rest3 =>
          match parseValue fuel rest3 with
          | none => none
          | some (v, rest4) =>
            match skipWs rest4 with
            | ',' :: rest5 => parseObjItems fuel ((key, v) :: acc) rest5
            | '\x7d' :: rest5 => some (.obj ((key, v) :: acc).reverse, rest5)
            | _ => none
        | _ => none
    | _ => none

end

/-- Embedding of `JSON.parse`: parses the whole string as one JSON value
(with surrounding whitespace); `none` models a thrown parse error. -/
def jsonParse (s : String) : Option Json :=
  match parseValue (2 * s.length + 4) s.toList with
  | some (v, rest) => if (skipWs rest).isEmpty then some v else none
  | none => none

/-- Whitespace trimming as performed by the ECMAScript `Number(string)`
conversion (both ends). -/
def jsTrim (cs : List Char) : List Char :=
  let isWs := fun c : Char =>
    c == ' ' || c == '\t' || c == '\n' || c == '\r' || c == '\x0b' || c == '\x0c' || c == '\xa0'
  ((cs.dropWhile isWs).reverse.dropWhile isWs).reverse

/-- Value of a digit list at the given radix; `none` if any character is not a
digit of that radix or the list is empty. -/
def parseRadix (radix : Nat) (digitVal : Char → Option Nat) (ds : List Char) : Option Nat :=
  if ds.isEmpty then none
  else
    ds.foldl
      (fun acc c =>
        match acc, digitVal c with
        | some n, some d => some (n * radix + d)
        | _, _ => none)
      (some 0)

/-- Binary digit value. -/
def binVal (c : Char) : Option Nat :=
  if c == '0' then some 0 else if c == '1' then some 1 else none

/-- Octal digit value. -/
def octVal (c : Char) : Option Nat :=
  if '0' ≤ c ∧ c ≤ '7' then some (c.toNat - '0'.toNat) else none

/-- Finishes an ECMAScript decimal literal: applies an optional exponent and
requires the input to be fully consumed. -/
def finishDecimal (neg : Bool) (ids fds : List Char) (rest : List Char) : Option JNum :=
  match parseExpPart rest with
  | none => none
  | some (e, rest2) =>
    if rest2.isEmpty then
      let mag : Nat := digitsToNat (ids ++ fds)
      let mant : Int := if neg then -(mag : Int) else (mag : Int)
      some ⟨mant, e - fds.length⟩
    else none

/-- Parses an ECMAScript signed decimal literal `(+|-)? digits (. digits)? exp?`
with at least one digit; `Infinity` is modelled as `none` (like `NaN`, it does
not compare equal to `503`, which is the only comparison this development
performs on the result). -/
def jsDecimal (cs : List Char) : Option JNum :=
  let st : Bool × List Char :=
    match cs with
    | '-' :: t => (true, t)
    | '+' :: t => (false, t)
    | _ => (false, cs)
  match st.2 with
  | 'I' :: 'n' :: 'f' :: 'i' :: 'n' :: 'i' :: 't' :: 'y' :: _ => none
  | l =>
    let ids := l.takeWhile Char.isDigit
    let r1 := l.dropWhile Char.isDigit
    match r1 with
    | '.' :: t =>
      let fds := t.takeWhile Char.isDigit
      let r2 := t.dropWhile Char.isDigit
      if ids.isEmpty ∧ fds.isEmpty then none
      else finishDecimal st.1 ids fds r2
    | _ =>
      if ids.isEmpty then none
      else finishDecimal st.1 ids [] r1

/-- Embedding of the ECMAScript `Number(string)` conversion (used by the loose
equality `string == 503`): trims whitespace, maps the empty string to 0,
handles hexadecimal/octal/binary prefixes and signed decimal literals; `none`
models `NaN` (and the infinities, which also never equal 503). -/
def strToNum (s : String) : Option JNum :=
  match jsTrim s.toList with
  | [] => some 0
  | '0' :: x :: rest =>
    if x == 'x' || x == 'X' then (parseRadix 16 hexVal rest).map (fun n => (⟨n, 0⟩ : JNum))
    else if x == 'o' || x == 'O' then (parseRadix 8 octVal rest).map (fun n => (⟨n, 0⟩ : JNum))
    else if x == 'b' || x == 'B' then (parseRadix 2 binVal rest).map (fun n => (⟨n, 0⟩ : JNum))
    else jsDecimal ('0' :: x :: rest)
  | cs => jsDecimal cs

/-- JS number-to-string for integers; a non-integral number can never
stringify to a numeral that re-parses to the integer `503`, so non-integral
values are rendered as a non-numeric token, preserving the verdict of the one
comparison (`== 503`) this development performs on such strings. -/
def jnumToJsStr (n : JNum) : String :=
  match jnumToInt n with
  | some i => if i < 0 then "-" ++ toString i.natAbs else toString i.natAbs
  | none => "(nonintegral)"

/-- Joins a list of strings with commas, as `Array.prototype.join`. -/
def joinWithComma : List String → String
  | [] => ""
  | [s] => s
  | s :: rest => s ++ "," ++ joinWithComma rest

mutual

/-- String form of a JSON value as an element of `Array.prototype.join`:
`null` becomes the empty string, arrays join recursively, plain objects
become `[object Object]`. -/
def jsElemStr : Json → String
  | .null => ""
  | .bool b => if b then "true" else "false"
  | .num q => jnumToJsStr q
  | .str s => s
  | .arr xs => joinWithComma (jsElemStrList xs)
  | .obj _ => "[object Object]"

/-- Mapped form of `jsElemStr` over a list (mutual recursion helper). -/
def jsElemStrList : List Json → List String
  | [] => []
  | j :: t => jsElemStr j :: jsElemStrList t

end

/-- Field lookup on a JSON object: the last binding of the key wins, matching
the behaviour of `JSON.parse` with duplicate keys. -/
def jsonGetField (fields : List (String × Json)) (k : String) : Option Json :=
  ((fields.filter (fun p => p.1 == k)).getLast?).map Prod.snd

/-- Optional-chaining property access `value?.key` on a parsed JSON value:
yields `none` (undefined) when the value is absent, not an object, or lacks
the key. -/
def jsOptGet (o : Option Json) (k : String) : Option Json :=
  match o with
  | some (.obj fs) => jsonGetField fs k
  | _ => none

/-- Whether an optional number (NaN modelled as `none`) equals 503. -/
def looseNumEq503 : Option JNum → Bool
  | some q => jnumEq503 q
  | none => false

/-- Embedding of the ECMAScript loose equality `x == 503` applied to the
result of the optional chain `parsed?.error?.code` (`none` = undefined):
numbers compare directly, strings go through the `Number` conversion, booleans
convert to 0/1, `null`/undefined never equal a number, and arrays/objects are
converted to a primitive string first (`[object Object]` for plain objects). -/
def looseEq503 : Option Json → Bool
  | none => false
  | some .null => false
  | some (.bool b) => (if b then (1 : Int) else 0) == 503
  | some (.num q) => jnumEq503 q
  | some (.str s) => looseNumEq503 (strToNum s)
  | some (.arr xs) => looseNumEq503 (strToNum (jsElemStr (.arr xs)))
  | some (.obj fs) => looseNumEq503 (strToNum (jsElemStr (.obj fs)))

/-- Arbitrary JavaScript values, as can be thrown and caught (`unknown` in the
source); used to model error objects. -/
inductive JSValue where
  | null
  | undef
  | num (q : JNum)
  | str (s : String)
  | bool (b : Bool)
  | arr (elems : List JSValue)
  | obj (fields : List (String × JSValue))

/-- Field lookup on a JavaScript object value (last binding wins). -/
def getField (fields : List (String × JSValue)) (k : String) : Option JSValue :=
  ((fields.filter (fun p => p.1 == k)).getLast?).map Prod.snd

/-- A JavaScript `Error` object, reduced to the one property the service
inspects: its `message` string. -/
def mkError (msg : String) : JSValue :=
  .obj [("message", .str msg)]

/-- The guard `typeof error === "object" && error !== null && "message" in
error && typeof error.message === "string"` from `isRetryableError`. -/
def hasStringMessage : JSValue → Bool
  | .obj fields =>
    match getField fields "message" with
    | some (.str _) => true
    | _ => false
  | _ => false

/-- Whether the first list is a prefix of the second. -/
def isPrefixOfChars : List Char → List Char → Bool
  | [], _ => true
  | _ :: _, [] => false
  | a :: as, b :: bs => a == b && isPrefixOfChars as bs

/-- Whether `needle` occurs as a contiguous run inside the second list. -/
def listIncludes (needle : List Char) : List Char → Bool
  | [] => needle.isEmpty
  | c :: t => isPrefixOfChars needle (c :: t) || listIncludes needle t

/-- Embedding of `String.prototype.includes` (case-sensitive, literal). -/
def strIncludes (s sub : String) : Bool :=
  listIncludes sub.toList s.toList

/-- Embedding of `isRetryableError` (src/services/geminiService.ts): requires
an object with a string `message`; tries `JSON.parse(message)` and on success
answers whether `parsed?.error?.code == 503` (the substring branch is then
skipped); if parsing throws, falls back to testing whether the message
contains `"503"` or `"overloaded"`. -/
def isRetryableError (error : JSValue) : Bool :=
  match error with
  | .obj fields =>
    match getField fields "message" with
    | some (.str message) =>
      match jsonParse message with
      | some parsed => looseEq503 (jsOptGet (jsOptGet (some parsed) "error") "code")
      | none => strIncludes message "503" || strIncludes message "overloaded"
    | _ => false
  | _ => false

/-- Retry-policy constant from the source: total number of attempts. -/
def MAX_RETRIES : Nat := 3

/-- Retry-policy constant from the source: base backoff delay in ms. -/
def INITIAL_DELAY_MS : Nat := 2000

/-- The closed set of illustration styles (`PictureBookStyle` in types.ts). -/
inductive PictureBookStyle where
  | watercolor
  | crayon
  | popArt
  | manga
  | pixelArt
  | fantasy

/-- The string value of each style, as in types.ts. -/
def styleLabel : PictureBookStyle → String
  | .watercolor => "水彩画風"
  | .crayon => "クレヨン画風"
  | .popArt => "ポップアート風"
  | .manga => "漫画風"
  | .pixelArt => "ピクセルアート風"
  | .fantasy => "ファンタジー風"

/-- One reference drawing (`OriginalImage` in types.ts). -/
structure OriginalImage where
  base64 : String
  mimeType : String

/-- One assembled book page (`BookPage` in types.ts); `text` is whatever
element the parsed `pages` array held (the source performs no element-type
validation, so at runtime it may be any JSON value). -/
structure BookPage where
  id : Nat
  text : Json
  imageUrl : String
  originalImages : List OriginalImage

/-- An uploaded file, reduced to the fields the service reads after the
(out-of-scope) FileReader data-URL encoding: its base64 payload and mime
type. -/
structure FileUpload where
  base64 : String
  mimeType : String

/-- Embedding of `filesToOriginalImages`: converts each uploaded file to an
`OriginalImage` carrying its base64 data and mime type. -/
def filesToOriginalImages (files : List FileUpload) : List OriginalImage :=
  files.map fun f => ⟨f.base64, f.mimeType⟩

/-- Error raised when `JSON.parse` rejects the given payload.  The exact
message is engine-defined and payload-dependent — modern V8 quotes a snippet
of the offending payload and other engines embed a position number — so it is
modelled after the V8 form, carrying the payload verbatim.  Whether this
error is classified retryable therefore genuinely depends on the payload
(one containing "503" or "overloaded" makes the classifier answer true), and
every theorem that depends on this classification takes it as an explicit
hypothesis rather than assuming a benign fixed message. -/
def jsonParseErrorFor (payload : String) : JSValue :=
  mkError ("Unexpected token, \"" ++ payload ++ "\" is not valid JSON")

/-- Error raised when a property is read on `null` (as `result.pages` does
when the story payload parses to `null`).  The message is engine-defined and
modelled representatively. -/
def nullReadError : JSValue :=
  mkError "Cannot read properties of null"

/-- Error thrown when the parsed story has no usable `pages` array. -/
def storyEmptyError : JSValue :=
  mkError "AIが物語を生成できませんでした。"

/-- Final error raised by `generateStory` when an attempt fails and no retry
is made. -/
def storyFinalError : JSValue :=
  mkError "物語の生成に失敗しました。AIが混み合っている可能性があるため、しばらくしてからもう一度お試しください。"

/-- Error raised after the story loop exits (unreachable in practice). -/
def storyLoopExitError : JSValue :=
  mkError "物語の生成に失敗しました。AIが応答しませんでした。"

/-- Error raised by `generatePictureBook`'s guard for an empty story list. -/
def storyGuardError : JSValue :=
  mkError "物語の生成に失敗しました。"

/-- Error raised when page `i` (0-based) fails with a non-retried exception. -/
def pageGenError (i : Nat) : JSValue :=
  mkError ("ページ " ++ toString (i + 1) ++ " の生成中にエラーが発生しました。AIが混み合っている可能性があります。")

/-- Error raised when page `i` (0-based) exhausts all attempts without an
image. -/
def pageExhaustedError (i : Nat) : JSValue :=
  mkError ("ページ " ++ toString (i + 1) ++ " の生成に複数回失敗しました。")

/-- Error thrown when a regeneration response has no usable image part. -/
def regenNoImageError : JSValue :=
  mkError "画像の再生成で有効な画像部分が返されませんでした。"

/-- Final error raised by `regeneratePageImage` when an attempt fails and no
retry is made. -/
def regenFinalError : JSValue :=
  mkError "画像の再生成に失敗しました。AIが混み合っている可能性があるため、しばらくしてからもう一度お試しください。"

/-- Error raised after the regeneration loop exits (unreachable in
practice). -/
def regenLoopExitError : JSValue :=
  mkError "画像の再生成に失敗しました。AIが応答しませんでした。"

/-- Outcome of one story-model call: either the transport/SDK layer throws a
value, or a response arrives whose `text` field is the given string. -/
inductive CallResult where
  | thrown (e : JSValue)
  | ok (text : String)

/-- Trace of one run of a retrying operation: how many attempts were issued,
which backoff sleeps (in ms, in order) were performed, and the final result
(`error e` models a thrown `e`). -/
structure RunTrace (α : Type) where
  attempts : Nat
  sleeps : List Nat
  result : Except JSValue α

/-- Property access `value.key` (without optional chaining) on a parsed JSON
value: reading a property of `null` throws; objects look the key up; other
primitives and arrays yield undefined (`none`). -/
def jsGetProp (j : Json) (k : String) : Except JSValue (Option Json) :=
  match j with
  | .null => .error nullReadError
  | .obj fs => .ok (jsonGetField fs k)
  | _ => .ok none

/-- The validation `result.pages && Array.isArray(result.pages) &&
result.pages.length > 0`: arrays are always truthy and non-arrays fail
`Array.isArray`, so the conjunction holds exactly for a non-empty array. -/
def storyPagesCheck (pagesOpt : Option Json) : Option (List Json) :=
  match pagesOpt with
  | some (.arr xs) => if xs.length > 0 then some xs else none
  | _ => none

/-- The body of one `generateStory` attempt (the `try` block): issue the call,
parse the response text as JSON, read `result.pages` and validate it; any
failure is the thrown error the `catch` receives. -/
def storyAttemptBody (c : CallResult) : Except JSValue (List Json) :=
  match c with
  | .thrown e => .error e
  | .ok text =>
    match jsonParse text with
    | none => .error (jsonParseErrorFor text)
    | some result =>
      match jsGetProp result "pages" with
      | .error e => .error e
      | .ok pagesOpt =>
        match storyPagesCheck pagesOpt with
        | some pages => .ok pages
        | none => .error storyEmptyError

/-- The `generateStory` retry loop, indexed by the current attempt number and
the remaining fuel (`MAX_RETRIES - attempt`).  A caught error is retried —
with a backoff sleep of `INITIAL_DELAY_MS * 2 ^ attempt` — only when it is
classified retryable and attempts remain; otherwise the final story error is
raised. -/
def storyLoop (oracle : Nat → CallResult) : Nat → Nat → RunTrace (List Json)
  | _, 0 => ⟨0, [], .error storyLoopExitError⟩
  | attempt, fuel + 1 =>
    match storyAttemptBody (oracle attempt) with
    | .ok pages => ⟨1, [], .ok pages⟩
    | .error e =>
      if isRetryableError e = true ∧ attempt < MAX_RETRIES - 1 then
        let rest := storyLoop oracle (attempt + 1) fuel
        ⟨rest.attempts + 1, INITIAL_DELAY_MS * 2 ^ attempt :: rest.sleeps, rest.result⟩
      else
        ⟨1, [], .error storyFinalError⟩

/-- The story prompt built from the theme and requested page count. -/
def storyPrompt (theme : String) (numPages : Nat) : String :=
  "あなたは子供向けの絵本作家です。以下のテーマを元に、" ++ toString numPages ++
    "ページの短い絵本の物語を作成してください。\nテーマ： " ++ theme

/-- Embedding of `generateStory`: runs the retry loop from attempt 0.  The
oracle abstracts the provider's response, per attempt, to the request built
from `storyPrompt theme numPages`. -/
def generateStory (oracle : Nat → CallResult) (theme : String) (numPages : Nat) :
    RunTrace (List Json) :=
  storyLoop oracle 0 MAX_RETRIES

/-- An inline binary part of a provider response. -/
structure InlineData where
  data : String
  mimeType : String

/-- One part of a response candidate: optional inline image data and optional
text. -/
structure ResponsePart where
  inlineData : Option InlineData := none
  text : Option String := none

/-- The content of a response candidate: its ordered parts. -/
structure Content where
  parts : List ResponsePart

/-- One response candidate, with optional content. -/
structure Candidate where
  content : Option Content

/-- A generate-content response from the image model: an optional candidate
list. -/
structure GenResponse where
  candidates : Option (List Candidate)

/-- Outcome of one image-model call. -/
inductive ImageCallResult where
  | thrown (e : JSValue)
  | ok (response : GenResponse)

/-- The extraction `response.candidates?.[0]?.content?.parts.find(part =>
part.inlineData)`: the first part of the first candidate that carries inline
data. -/
def findImagePart (response : GenResponse) : Option ResponsePart :=
  match response.candidates with
  | some (c :: _) =>
    match c.content with
    | some content => content.parts.find? (fun part => part.inlineData.isSome)
    | none => none
  | _ => none

/-- The inline data of the found image part, if any (the source's
`imagePart && imagePart.inlineData` guard). -/
def extractInlineData (response : GenResponse) : Option InlineData :=
  match findImagePart response with
  | some part => part.inlineData
  | none => none

/-- The data URI built from an inline image part. -/
def mkDataUrl (inl : InlineData) : String :=
  "data:" ++ inl.mimeType ++ ";base64," ++ inl.data

/-- The per-page image retry loop inside `generatePictureBook`, indexed by
attempt and fuel.  A response without an image part falls through to the next
attempt with no sleep; a thrown retryable error sleeps
`INITIAL_DELAY_MS * 2 ^ attempt` before retrying; other thrown errors raise
the page error immediately; `ok none` models falling off the loop with
`pageGenerated` still false. -/
def pageAttemptLoop (imgOracle : Nat → Nat → ImageCallResult) (i : Nat) (storyPart : Json)
    (origs : List OriginalImage) : Nat → Nat → RunTrace (Option BookPage)
  | _, 0 => ⟨0, [], .ok none⟩
  | attempt, fuel + 1 =>
    match imgOracle i attempt with
    | .ok response =>
      match extractInlineData response with
      | some inl =>
        ⟨1, [], .ok (some ⟨i, storyPart, mkDataUrl inl, origs⟩)⟩
      | none =>
        let rest := pageAttemptLoop imgOracle i storyPart origs (attempt + 1) fuel
        ⟨rest.attempts + 1, rest.sleeps, rest.result⟩
    | .thrown e =>
      if isRetryableError e = true ∧ attempt < MAX_RETRIES - 1 then
        let rest := pageAttemptLoop imgOracle i storyPart origs (attempt + 1) fuel
        ⟨rest.attempts + 1, INITIAL_DELAY_MS * 2 ^ attempt :: rest.sleeps, rest.result⟩
      else
        ⟨1, [], .error (pageGenError i)⟩

/-- The sequential per-page generation of `generatePictureBook`: pages are
generated strictly in order, each page's loop running to completion before
the next; a page that exhausts its attempts raises `pageExhaustedError` and
aborts the remainder. -/
def generatePages (imgOracle : Nat → Nat → ImageCallResult) (origs : List OriginalImage) :
    Nat → List Json → RunTrace (List BookPage)
  | _, [] => ⟨0, [], .ok []⟩
  | i, storyPart :: restParts =>
    let pr := pageAttemptLoop imgOracle i storyPart origs 0 MAX_RETRIES
    match pr.result with
    | .error e => ⟨pr.attempts, pr.sleeps, .error e⟩
    | .ok none => ⟨pr.attempts, pr.sleeps, .error (pageExhaustedError i)⟩
    | .ok (some page) =>
      let rr := generatePages imgOracle origs (i + 1) restParts
      ⟨pr.attempts + rr.attempts, pr.sleeps ++ rr.sleeps,
        match rr.result with
        | .ok pages => .ok (page :: pages)
        | .error e => .error e⟩

/-- Embedding of `generatePictureBook`: generates the story, guards against an
empty story-part list, converts the uploaded files, then generates the pages
sequentially.  A story failure propagates unchanged. -/
def generatePictureBook (storyOracle : Nat → CallResult)
    (imgOracle : Nat → Nat → ImageCallResult) (theme : String)
    (characterImages : List FileUpload) (style : PictureBookStyle) (numPages : Nat) :
    RunTrace (List BookPage) :=
  let s := generateStory storyOracle theme numPages
  match s.result with
  | .error e => ⟨s.attempts, s.sleeps, .error e⟩
  | .ok storyParts =>
    if storyParts.length = 0 then
      ⟨s.attempts, s.sleeps, .error storyGuardError⟩
    else
      let origs := filesToOriginalImages characterImages
      let pr := generatePages imgOracle origs 0 storyParts
      ⟨s.attempts + pr.attempts, s.sleeps ++ pr.sleeps, pr.result⟩

/-- Variant of `generatePictureBook` with the empty-story guard removed, used
to state that the guard is unreachable. -/
def generatePictureBookNoGuard (storyOracle : Nat → CallResult)
    (imgOracle : Nat → Nat → ImageCallResult) (theme : String)
    (characterImages : List FileUpload) (style : PictureBookStyle) (numPages : Nat) :
    RunTrace (List BookPage) :=
  let s := generateStory storyOracle theme numPages
  match s.result with
  | .error e => ⟨s.attempts, s.sleeps, .error e⟩
  | .ok storyParts =>
    let origs := filesToOriginalImages characterImages
    let pr := generatePages imgOracle origs 0 storyParts
    ⟨s.attempts + pr.attempts, s.sleeps ++ pr.sleeps, pr.result⟩

/-- The body of one `regeneratePageImage` attempt: issue the call and extract
the image part; a response without one throws `regenNoImageError`. -/
def regenAttemptBody (c : ImageCallResult) : Except JSValue String :=
  match c with
  | .thrown e => .error e
  | .ok response =>
    match extractInlineData response with
    | some inl => .ok (mkDataUrl inl)
    | none => .error regenNoImageError

/-- The `regeneratePageImage` retry loop: same caught-error policy as the
story loop, with the regeneration-specific final error. -/
def regenLoop (oracle : Nat → ImageCallResult) : Nat → Nat → RunTrace String
  | _, 0 => ⟨0, [], .error regenLoopExitError⟩
  | attempt, fuel + 1 =>
    match regenAttemptBody (oracle attempt) with
    | .ok url => ⟨1, [], .ok url⟩
    | .error e =>
      if isRetryableError e = true ∧ attempt < MAX_RETRIES - 1 then
        let rest := regenLoop oracle (attempt + 1) fuel
        ⟨rest.attempts + 1, INITIAL_DELAY_MS * 2 ^ attempt :: rest.sleeps, rest.result⟩
      else
        ⟨1, [], .error regenFinalError⟩

/-- Embedding of `regeneratePageImage`: runs the retry loop from attempt 0.
The oracle abstracts the provider's image response per attempt. -/
def regeneratePageImage (oracle : Nat → ImageCallResult) (storyPart : String)
    (originalImages : List OriginalImage) (style : PictureBookStyle) : RunTrace String :=
  regenLoop oracle 0 MAX_RETRIES

/-- The cached provider client handle (`GoogleGenAI` instance), reduced to the
credential it was constructed with. -/
structure GoogleGenAI where
  apiKey : String

/-- The configuration error thrown when the API key is absent. -/
def apiKeyError : JSValue :=
  mkError "APIキーが設定されていません。環境変数にAPI_KEYを設定してください。"

/-- JavaScript falsiness of the optional `process.env.API_KEY` string: absent
or empty strings are falsy. -/
def strOptFalsy : Option String → Bool
  | none => true
  | some s => s == ""

/-- Embedding of `getAiInstance`: takes the module-level cache (`ai`) and the
environment credential, and returns the call's outcome together with the new
cache state.  A cached handle is returned as-is; otherwise a falsy credential
throws `apiKeyError` without caching, and a present credential constructs and
caches a handle. -/
def getAiInstance (ai : Option GoogleGenAI) (envApiKey : Option String) :
    Except JSValue GoogleGenAI × Option GoogleGenAI :=
  match ai with
  | some inst => (.ok inst, some inst)
  | none =>
    if strOptFalsy envApiKey then (.error apiKeyError, none)
    else
      let inst : GoogleGenAI := ⟨envApiKey.getD ""⟩
      (.ok inst, some inst)

/-! Helper lemmas about the retry loops. -/

theorem storyPagesCheck_ne_nil {o : Option Json} {xs : List Json}
    (h : storyPagesCheck o = some xs) : xs ≠ [] := by
  match o with
  | none => simp [storyPagesCheck] at h
  | some .null => simp [storyPagesCheck] at h
  | some (.bool b) => simp [storyPagesCheck] at h
  | some (.num q) => simp [storyPagesCheck] at h
  | some (.str s) => simp [storyPagesCheck] at h
  | some (.obj fs) => simp [storyPagesCheck] at h
  | some (.arr l) =>
    simp only [storyPagesCheck] at h
    split at h
    · cases h
      intro hnil
      subst hnil
      simp_all
    · cases h

theorem storyAttemptBody_ok_ne_nil {c : CallResult} {pages : List Json}
    (h : storyAttemptBody c = .ok pages) : pages ≠ [] := by
  match c with
  | .thrown e => simp [storyAttemptBody] at h
  | .ok text =>
    simp only [storyAttemptBody] at h
    rcases hp : jsonParse text with _ | result
    · simp only [hp] at h; simp at h
    · simp only [hp] at h
      rcases hg : jsGetProp result "pages" with e | pagesOpt
      · simp only [hg] at h; simp at h
      · simp only [hg] at h
        rcases hc : storyPagesCheck pagesOpt with _ | xs
        · simp only [hc] at h; simp at h
        · simp only [hc] at h
          have h2 : xs = pages := by simpa using h
          subst h2
          exact storyPagesCheck_ne_nil hc

theorem storyLoop_ok_ne_nil (oracle : Nat → CallResult) :
    ∀ fuel attempt pages, (storyLoop oracle attempt fuel).result = .ok pages → pages ≠ [] := by
  intro fuel
  induction fuel with
  | zero => intro attempt pages h; simp [storyLoop] at h
  | succ f ih =>
    intro attempt pages h
    simp only [storyLoop] at h
    rcases hb : storyAttemptBody (oracle attempt) with e | ps
    · simp only [hb] at h
      by_cases hc : isRetryableError e = true ∧ attempt < MAX_RETRIES - 1
      · rw [if_pos hc] at h
        exact ih (attempt + 1) pages h
      · rw [if_neg hc] at h
        simp at h
    · simp only [hb] at h
      have h2 : ps = pages := by simpa using h
      subst h2
      exact storyAttemptBody_ok_ne_nil hb

theorem generateStory_ok_ne_nil {oracle : Nat → CallResult} {theme : String} {numPages : Nat}
    {pages : List Json} (h : (generateStory oracle theme numPages).result = .ok pages) :
    pages ≠ [] :=
  storyLoop_ok_ne_nil oracle MAX_RETRIES 0 pages h

theorem pageAttemptLoop_ok_shape (io : Nat → Nat → ImageCallResult) (i : Nat) (part : Json)
    (origs : List OriginalImage) :
    ∀ fuel attempt p, (pageAttemptLoop io i part origs attempt fuel).result = .ok (some p) →
      p.id = i ∧ p.text = part ∧
      ∃ a response inl, io i a = .ok response ∧ extractInlineData response = some inl ∧
        p.imageUrl = mkDataUrl inl := by
  intro fuel
  induction fuel with
  | zero => intro attempt p h; simp [pageAttemptLoop] at h
  | succ f ih =>
    intro attempt p h
    simp only [pageAttemptLoop] at h
    rcases hcall : io i attempt with e | response
    · simp only [hcall] at h
      by_cases hc : isRetryableError e = true ∧ attempt < MAX_RETRIES - 1
      · rw [if_pos hc] at h
        exact ih (attempt + 1) p h
      · rw [if_neg hc] at h
        simp at h
    · simp only [hcall] at h
      rcases hinl : extractInlineData response with _ | inl
      · simp only [hinl] at h
        exact ih (attempt + 1) p h
      · simp only [hinl] at h
        have h2 : (⟨i, part, mkDataUrl inl, origs⟩ : BookPage) = p := by simpa using h
        subst h2
        exact ⟨rfl, rfl, attempt, response, inl, hcall, hinl, rfl⟩

theorem generatePages_ok_shape (io : Nat → Nat → ImageCallResult) (origs : List OriginalImage) :
    ∀ parts i pages, (generatePages io origs i parts).result = .ok pages →
      pages.length = parts.length ∧
      ∀ k (hk : k < pages.length) (hk2 : k < parts.length),
        (pages.get ⟨k, hk⟩).id = i + k ∧ (pages.get ⟨k, hk⟩).text = parts.get ⟨k, hk2⟩ ∧
        ∃ inl, (pages.get ⟨k, hk⟩).imageUrl = mkDataUrl inl := by
  intro parts
  induction parts with
  | nil =>
    intro i pages h
    simp only [generatePages] at h
    have h2 : ([] : List BookPage) = pages := by simpa using h
    subst h2
    exact ⟨rfl, fun k hk hk2 => absurd hk (by simp)⟩
  | cons part restParts ih =>
    intro i pages h
    simp only [generatePages] at h
    rcases hpr : (pageAttemptLoop io i part origs 0 MAX_RETRIES).result with e | op
    · simp only [hpr] at h; simp at h
    · simp only [hpr] at h
      rcases op with _ | page
      · simp at h
      · rcases hrr : (generatePages io origs (i + 1) restParts).result with e2 | pages2
        · simp only [hrr] at h; simp at h
        · simp only [hrr] at h
          have h2 : page :: pages2 = pages := by simpa using h
          subst h2
          obtain ⟨hid, htext, _, _, inl, _, _, hurl⟩ :=
            pageAttemptLoop_ok_shape io i part origs MAX_RETRIES 0 page hpr
          obtain ⟨hlen, hrest⟩ := ih (i + 1) pages2 hrr
          refine ⟨by simp [hlen], ?_⟩
          intro k hk hk2
          match k with
          | 0 => exact ⟨by simpa using hid, by simpa using htext, inl, hurl⟩
          | Nat.succ k2 =>
            have hk' : k2 < pages2.length := by simpa using hk
            have hk2' : k2 < restParts.length := by simpa using hk2
            obtain ⟨h1, h2, h3⟩ := hrest k2 hk' hk2'
            have e1 : ((page :: pages2).get ⟨k2 + 1, hk⟩).id = (pages2.get ⟨k2, hk'⟩).id := rfl
            have e2 : ((page :: pages2).get ⟨k2 + 1, hk⟩).text =
              (pages2.get ⟨k2, hk'⟩).text := rfl
            have e3 : ((page :: pages2).get ⟨k2 + 1, hk⟩).imageUrl =
              (pages2.get ⟨k2, hk'⟩).imageUrl := rfl
            refine ⟨by rw [e1, h1]; omega, e2.trans (h2.trans rfl), by rw [e3]; exact h3⟩

theorem regenLoop_ok_shape (oracle : Nat → ImageCallResult) :
    ∀ fuel attempt url, (regenLoop oracle attempt fuel).result = .ok url →
      ∃ a response inl, oracle a = .ok response ∧ extractInlineData response = some inl ∧
        url = mkDataUrl inl := by
  intro fuel
  induction fuel with
  | zero => intro attempt url h; simp [regenLoop] at h
  | succ f ih =>
    intro attempt url h
    simp only [regenLoop] at h
    rcases hb : regenAttemptBody (oracle attempt) with e | u
    · simp only [hb] at h
      by_cases hc : isRetryableError e = true ∧ attempt < MAX_RETRIES - 1
      · rw [if_pos hc] at h
        exact ih (attempt + 1) url h
      · rw [if_neg hc] at h
        simp at h
    · simp only [hb] at h
      have h2 : u = url := by simpa using h
      subst h2
      rcases hcall : oracle attempt with e2 | response
      · rw [hcall] at hb; simp [regenAttemptBody] at hb
      · rw [hcall] at hb
        rcases hinl : extractInlineData response with _ | inl
        · simp [regenAttemptBody, hinl] at hb
        · simp only [regenAttemptBody, hinl] at hb
          have h3 : mkDataUrl inl = u := by simpa using hb
          exact ⟨attempt, response, inl, hcall, hinl, h3.symm⟩

theorem mkDataUrl_ne_empty (inl : InlineData) : mkDataUrl inl ≠ "" := by
  intro h
  have h2 := congrArg String.length h
  rw [mkDataUrl, String.length_append, String.length_append, String.length_append] at h2
  have h5 : ("data:").length = 5 := rfl
  have h0 : ("" : String).length = 0 := rfl
  omega

/-! Claim theorems. -/

/-- C1: `generatePictureBook` either fails with an error (returning no pages
at all — also in the retries-exhausted case), or succeeds with a page list
whose length equals the number of story parts the story call returned, page k
carrying id k and the k-th story part as its text; it never returns a
partially-filled or shorter list. -/
theorem generatePictureBook_all_or_nothing (so : Nat → CallResult)
    (io : Nat → Nat → ImageCallResult) (theme : String) (files : List FileUpload)
    (style : PictureBookStyle) (n : Nat) :
    (∃ e, (generatePictureBook so io theme files style n).result = .error e) ∨
    (∃ parts pages, (generateStory so theme n).result = .ok parts ∧
      (generatePictureBook so io theme files style n).result = .ok pages ∧
      pages.length = parts.length ∧
      ∀ k (hk : k < pages.length) (hk2 : k < parts.length),
        (pages.get ⟨k, hk⟩).id = k ∧ (pages.get ⟨k, hk⟩).text = parts.get ⟨k, hk2⟩) := by
  rcases hs : (generateStory so theme n).result with e | parts
  · left
    exact ⟨e, by simp [generatePictureBook, hs]⟩
  · by_cases hz : parts.length = 0
    · left
      exact ⟨storyGuardError, by simp [generatePictureBook, hs, hz]⟩
    · rcases hp : (generatePages io (filesToOriginalImages files) 0 parts).result
        with e | pages
      · left
        exact ⟨e, by simp [generatePictureBook, hs, hz, hp]⟩
      · right
        obtain ⟨hlen, hprops⟩ :=
          generatePages_ok_shape io (filesToOriginalImages files) parts 0 pages hp
        refine ⟨parts, pages, rfl, by simp [generatePictureBook, hs, hz, hp], hlen, ?_⟩
        intro k hk hk2
        obtain ⟨h1, h2, _⟩ := hprops k hk hk2
        exact ⟨by simpa using h1, h2⟩

/-- C3: `isRetryable` answers true for an object whose message is the JSON
text of a 503 error, true for a message containing "overloaded", false for
"invalid argument", and false for every value that is not an object with a
string `message` field — in particular for null, a number, a string, and an
object whose message is the number 123. -/
theorem isRetryable_concrete_and_nonobject :
    isRetryableError (mkError "\x7b\"error\":\x7b\"code\":503\x7d\x7d") = true ∧
    isRetryableError (mkError "Service overloaded, retry later") = true ∧
    isRetryableError (mkError "invalid argument") = false ∧
    (∀ e : JSValue, hasStringMessage e = false → isRetryableError e = false) ∧
    isRetryableError .null = false ∧
    isRetryableError (.num 7) = false ∧
    isRetryableError (.str "overloaded 503") = false ∧
    isRetryableError (.obj [("message", .num 123)]) = false := by
  refine ⟨rfl, rfl, rfl, ?_, rfl, rfl, rfl, rfl⟩
  intro e h
  cases e with
  | obj fields =>
    simp only [isRetryableError]
    simp only [hasStringMessage] at h
    rcases hg : getField fields "message" with _ | v
    · simp [hg]
    · cases v <;> simp only [hg] at h ⊢ <;> simp_all
  | null => rfl
  | undef => rfl
  | num q => rfl
  | str s => rfl
  | bool b => rfl
  | arr l => rfl

/-- C3 witness: the universally quantified part applied to the number 7. -/
theorem isRetryable_concrete_and_nonobject_witness :
    hasStringMessage (JSValue.num 7) = false ∧ isRetryableError (JSValue.num 7) = false :=
  ⟨rfl, isRetryable_concrete_and_nonobject.2.2.2.1 (JSValue.num 7) rfl⟩

/-- C4: when every attempt throws an error the classifier deems retryable,
the story retry loop performs exactly MAX_RETRIES = 3 attempts, sleeps
INITIAL_DELAY_MS * 2 ^ 0 = 2000 ms before attempt 2 and
INITIAL_DELAY_MS * 2 ^ 1 = 4000 ms before attempt 3 — nothing before attempt
1 — and then raises the final translated story error. -/
theorem generateStory_retry_timing (oracle : Nat → CallResult) (theme : String) (numPages : Nat)
    (h : ∀ a, ∃ e, oracle a = .thrown e ∧ isRetryableError e = true) :
    generateStory oracle theme numPages =
      ⟨MAX_RETRIES, [INITIAL_DELAY_MS * 2 ^ 0, INITIAL_DELAY_MS * 2 ^ 1],
        .error storyFinalError⟩ ∧
    MAX_RETRIES = 3 ∧ INITIAL_DELAY_MS * 2 ^ 0 = 2000 ∧ INITIAL_DELAY_MS * 2 ^ 1 = 4000 := by
  obtain ⟨e0, h0, r0⟩ := h 0
  obtain ⟨e1, h1, r1⟩ := h 1
  obtain ⟨e2, h2, r2⟩ := h 2
  have b0 : storyAttemptBody (oracle 0) = .error e0 := by rw [h0]; rfl
  have b1 : storyAttemptBody (oracle 1) = .error e1 := by rw [h1]; rfl
  have b2 : storyAttemptBody (oracle 2) = .error e2 := by rw [h2]; rfl
  have l2 : storyLoop oracle 2 1 = ⟨1, [], .error storyFinalError⟩ := by
    show (match storyAttemptBody (oracle 2) with
      | .ok pages => (⟨1, [], .ok pages⟩ : RunTrace (List Json))
      | .error e =>
        if isRetryableError e = true ∧ 2 < MAX_RETRIES - 1 then
          ⟨(storyLoop oracle 3 0).attempts + 1,
            INITIAL_DELAY_MS * 2 ^ 2 :: (storyLoop oracle 3 0).sleeps,
            (storyLoop oracle 3 0).result⟩
        else ⟨1, [], .error storyFinalError⟩) = ⟨1, [], .error storyFinalError⟩
    simp only [b2]
    rw [if_neg (fun hc => by simp [MAX_RETRIES] at hc)]
  have l1 : storyLoop oracle 1 2 = ⟨2, [INITIAL_DELAY_MS * 2 ^ 1], .error storyFinalError⟩ := by
    show (match storyAttemptBody (oracle 1) with
      | .ok pages => (⟨1, [], .ok pages⟩ : RunTrace (List Json))
      | .error e =>
        if isRetryableError e = true ∧ 1 < MAX_RETRIES - 1 then
          ⟨(storyLoop oracle 2 1).attempts + 1,
            INITIAL_DELAY_MS * 2 ^ 1 :: (storyLoop oracle 2 1).sleeps,
            (storyLoop oracle 2 1).result⟩
        else ⟨1, [], .error storyFinalError⟩) = _
    simp only [b1]
    rw [if_pos ⟨r1, by decide⟩, l2]
  have l0 : storyLoop oracle 0 3 =
      ⟨3, [INITIAL_DELAY_MS * 2 ^ 0, INITIAL_DELAY_MS * 2 ^ 1], .error storyFinalError⟩ := by
    show (match storyAttemptBody (oracle 0) with
      | .ok pages => (⟨1, [], .ok pages⟩ : RunTrace (List Json))
      | .error e =>
        if isRetryableError e = true ∧ 0 < MAX_RETRIES - 1 then
          ⟨(storyLoop oracle 1 2).attempts + 1,
            INITIAL_DELAY_MS * 2 ^ 0 :: (storyLoop oracle 1 2).sleeps,
            (storyLoop oracle 1 2).result⟩
        else ⟨1, [], .error storyFinalError⟩) = _
    simp only [b0]
    rw [if_pos ⟨r0, by decide⟩, l1]
  exact ⟨l0, rfl, rfl, rfl⟩

/-- C4 witness: a concrete always-thrown 503 error exercises the timing
theorem. -/
theorem generateStory_retry_timing_witness :
    generateStory (fun _ => .thrown (mkError "\x7b\"error\":\x7b\"code\":503\x7d\x7d"))
        "宇宙のぼうけん" 4 =
      ⟨MAX_RETRIES, [INITIAL_DELAY_MS * 2 ^ 0, INITIAL_DELAY_MS * 2 ^ 1],
        .error storyFinalError⟩ ∧
    MAX_RETRIES = 3 ∧ INITIAL_DELAY_MS * 2 ^ 0 = 2000 ∧ INITIAL_DELAY_MS * 2 ^ 1 = 4000 :=
  generateStory_retry_timing _ "宇宙のぼうけん" 4
    (fun a => ⟨mkError "\x7b\"error\":\x7b\"code\":503\x7d\x7d", rfl, by rfl⟩)

/-- C2 counterexample: with every story response carrying a payload that is
not valid JSON, `generateStory` performs exactly one attempt — not the
claimed full MAX_RETRIES = 3 — with no backoff sleep, and raises the final
story error at once, because the parse error is not classified retryable. -/
theorem generateStory_malformed_json_one_attempt :
    generateStory (fun _ => .ok "not json") "どうぶつたち" 4 =
      ⟨1, [], .error storyFinalError⟩ ∧
    (1 : Nat) ≠ MAX_RETRIES := by
  exact ⟨rfl, by decide⟩

/-- C2 amended: a malformed story payload is retried exactly when the
engine-defined parse-error message for that payload is itself classified
retryable.  (1) When it is not — as for typical payloads — the final story
error is raised immediately after the single first attempt, with no sleeps.
(2) When the payload makes the message retryable (e.g. it contains "503"),
the attempt IS retried, with the same backoff as a transport error.  (3) A
payload that parses but lacks a non-empty `pages` array throws the fixed
story-validation error, which is never retryable, so that case always fails
after the first such attempt.  In no case is a malformed list returned. -/
theorem generateStory_malformed_retry_iff_classified :
    (∀ (oracle : Nat → CallResult) (theme : String) (numPages : Nat) (s : String),
      oracle 0 = .ok s → jsonParse s = none →
      isRetryableError (jsonParseErrorFor s) = false →
      generateStory oracle theme numPages = ⟨1, [], .error storyFinalError⟩) ∧
    (∀ (oracle : Nat → CallResult) (theme : String) (numPages : Nat) (s : String),
      oracle 0 = .ok s → jsonParse s = none →
      isRetryableError (jsonParseErrorFor s) = true →
      generateStory oracle theme numPages =
        ⟨(storyLoop oracle 1 2).attempts + 1,
          INITIAL_DELAY_MS * 2 ^ 0 :: (storyLoop oracle 1 2).sleeps,
          (storyLoop oracle 1 2).result⟩) ∧
    (∀ (oracle : Nat → CallResult) (theme : String) (numPages : Nat) (s : String)
      (v : Json) (pagesOpt : Option Json),
      oracle 0 = .ok s → jsonParse s = some v → jsGetProp v "pages" = .ok pagesOpt →
      storyPagesCheck pagesOpt = none →
      generateStory oracle theme numPages = ⟨1, [], .error storyFinalError⟩) := by
  refine ⟨?_, ?_, ?_⟩
  · intro oracle theme numPages s h0 hbad hcls
    have b0 : storyAttemptBody (oracle 0) = .error (jsonParseErrorFor s) := by
      rw [h0]
      simp [storyAttemptBody, hbad]
    show (match storyAttemptBody (oracle 0) with
      | .ok pages => (⟨1, [], .ok pages⟩ : RunTrace (List Json))
      | .error e =>
        if isRetryableError e = true ∧ 0 < MAX_RETRIES - 1 then
          ⟨(storyLoop oracle 1 2).attempts + 1,
            INITIAL_DELAY_MS * 2 ^ 0 :: (storyLoop oracle 1 2).sleeps,
            (storyLoop oracle 1 2).result⟩
        else ⟨1, [], .error storyFinalError⟩) = _
    simp only [b0]
    rw [if_neg (fun hc => by rw [hcls] at hc; exact absurd hc.1 (by decide))]
  · intro oracle theme numPages s h0 hbad hcls
    have b0 : storyAttemptBody (oracle 0) = .error (jsonParseErrorFor s) := by
      rw [h0]
      simp [storyAttemptBody, hbad]
    show (match storyAttemptBody (oracle 0) with
      | .ok pages => (⟨1, [], .ok pages⟩ : RunTrace (List Json))
      | .error e =>
        if isRetryableError e = true ∧ 0 < MAX_RETRIES - 1 then
          ⟨(storyLoop oracle 1 2).attempts + 1,
            INITIAL_DELAY_MS * 2 ^ 0 :: (storyLoop oracle 1 2).sleeps,
            (storyLoop oracle 1 2).result⟩
        else ⟨1, [], .error storyFinalError⟩) = _
    simp only [b0]
    rw [if_pos ⟨hcls, by decide⟩]
  · intro oracle theme numPages s v pagesOpt h0 hparse hget hcheck
    have b0 : storyAttemptBody (oracle 0) = .error storyEmptyError := by
      rw [h0]
      simp [storyAttemptBody, hparse, hget, hcheck]
    show (match storyAttemptBody (oracle 0) with
      | .ok pages => (⟨1, [], .ok pages⟩ : RunTrace (List Json))
      | .error e =>
        if isRetryableError e = true ∧ 0 < MAX_RETRIES - 1 then
          ⟨(storyLoop oracle 1 2).attempts + 1,
            INITIAL_DELAY_MS * 2 ^ 0 :: (storyLoop oracle 1 2).sleeps,
            (storyLoop oracle 1 2).result⟩
        else ⟨1, [], .error storyFinalError⟩) = _
    simp only [b0]
    rw [if_neg (fun hc => by exact absurd hc.1 (by decide))]

/-- C2 amended witness: all three branches at concrete payloads — a benign
non-JSON payload fails after one attempt; a non-JSON payload containing
"503" makes the quoted parse-error message retryable and triggers the
backoff retry; an empty `pages` array fails after one attempt. -/
theorem generateStory_malformed_retry_iff_classified_witness :
    (isRetryableError (jsonParseErrorFor "ごめんなさい、できません") = false ∧
      generateStory (fun _ => .ok "ごめんなさい、できません") "うみのいきもの" 6 =
        ⟨1, [], .error storyFinalError⟩) ∧
    (isRetryableError (jsonParseErrorFor "error 503") = true ∧
      generateStory (fun _ => .ok "error 503") "うみのいきもの" 6 =
        ⟨(storyLoop (fun _ => .ok "error 503") 1 2).attempts + 1,
          INITIAL_DELAY_MS * 2 ^ 0 :: (storyLoop (fun _ => .ok "error 503") 1 2).sleeps,
          (storyLoop (fun _ => .ok "error 503") 1 2).result⟩) ∧
    generateStory (fun _ => .ok "\x7b\"pages\":[]\x7d") "うみのいきもの" 6 =
      ⟨1, [], .error storyFinalError⟩ :=
  ⟨⟨rfl, generateStory_malformed_retry_iff_classified.1 _ _ _ _ rfl rfl rfl⟩,
    ⟨rfl, generateStory_malformed_retry_iff_classified.2.1 _ _ _ _ rfl rfl rfl⟩,
    generateStory_malformed_retry_iff_classified.2.2 _ _ _
      "\x7b\"pages\":[]\x7d" (Json.obj [("pages", Json.arr [])]) (some (Json.arr []))
      rfl rfl rfl rfl⟩

/-- A provider response whose only part is text, with no inline image data. -/
def textOnlyResponse : GenResponse :=
  ⟨some [⟨some ⟨[⟨none, some "(text only)"⟩]⟩⟩]⟩

/-- A provider response carrying a PNG inline part. -/
def pngResponse : GenResponse :=
  ⟨some [⟨some ⟨[⟨some ⟨"IMG", "image/png"⟩, none⟩]⟩⟩]⟩

/-- C5 counterexample: page 0's first image response lacks an inline-image
part and the following attempt succeeds, yet the whole run performs no
backoff sleep at all — the no-image retry is immediate, not preceded by the
claimed INITIAL_DELAY_MS * 2 ^ attempt wait. -/
theorem pictureBook_noImage_retry_without_backoff :
    generatePictureBook (fun _ => .ok "\x7b\"pages\":[\"p1\"]\x7d")
        (fun _ a => if a = 0 then .ok textOnlyResponse else .ok pngResponse)
        "どうぶつたち" [] .watercolor 1 =
      ⟨3, [], .ok [⟨0, .str "p1", "data:image/png;base64,IMG", []⟩]⟩ ∧
    ([] : List Nat) ≠ [INITIAL_DELAY_MS * 2 ^ 0] := by
  exact ⟨rfl, by decide⟩

/-- C5 amended: a response without an inline-image part is indeed retried
while attempts remain (the loop proceeds to the next attempt), but — unlike a
thrown transport error — no backoff sleep precedes that retry: the run's
sleeps are exactly those of the remaining attempts, with nothing added. -/
theorem pageLoop_noImage_retries_immediately (imgOracle : Nat → Nat → ImageCallResult)
    (i : Nat) (storyPart : Json) (origs : List OriginalImage) (attempt fuel : Nat)
    (response : GenResponse)
    (hcall : imgOracle i attempt = .ok response)
    (hno : extractInlineData response = none) :
    pageAttemptLoop imgOracle i storyPart origs attempt (fuel + 1) =
      ⟨(pageAttemptLoop imgOracle i storyPart origs (attempt + 1) fuel).attempts + 1,
        (pageAttemptLoop imgOracle i storyPart origs (attempt + 1) fuel).sleeps,
        (pageAttemptLoop imgOracle i storyPart origs (attempt + 1) fuel).result⟩ := by
  show (match imgOracle i attempt with
    | .ok response =>
      match extractInlineData response with
      | some inl =>
        (⟨1, [], .ok (some ⟨i, storyPart, mkDataUrl inl, origs⟩)⟩ : RunTrace (Option BookPage))
      | none =>
        ⟨(pageAttemptLoop imgOracle i storyPart origs (attempt + 1) fuel).attempts + 1,
          (pageAttemptLoop imgOracle i storyPart origs (attempt + 1) fuel).sleeps,
          (pageAttemptLoop imgOracle i storyPart origs (attempt + 1) fuel).result⟩
    | .thrown e =>
      if isRetryableError e = true ∧ attempt < MAX_RETRIES - 1 then
        ⟨(pageAttemptLoop imgOracle i storyPart origs (attempt + 1) fuel).attempts + 1,
          INITIAL_DELAY_MS * 2 ^ attempt ::
            (pageAttemptLoop imgOracle i storyPart origs (attempt + 1) fuel).sleeps,
          (pageAttemptLoop imgOracle i storyPart origs (attempt + 1) fuel).result⟩
      else ⟨1, [], .error (pageGenError i)⟩) = _
  simp only [hcall, hno]

/-- C5 amended witness: the no-image retry at page 0, attempt 0. -/
theorem pageLoop_noImage_retries_immediately_witness :
    pageAttemptLoop (fun _ _ => .ok textOnlyResponse) 0 (.str "p") [] 0 3 =
      ⟨(pageAttemptLoop (fun _ _ => .ok textOnlyResponse) 0 (.str "p") [] 1 2).attempts + 1,
        (pageAttemptLoop (fun _ _ => .ok textOnlyResponse) 0 (.str "p") [] 1 2).sleeps,
        (pageAttemptLoop (fun _ _ => .ok textOnlyResponse) 0 (.str "p") [] 1 2).result⟩ :=
  pageLoop_noImage_retries_immediately (fun _ _ => .ok textOnlyResponse) 0 (.str "p") [] 0 2
    textOnlyResponse rfl rfl

/-- C6 counterexample: with every regeneration response lacking an
inline-image part, `regeneratePageImage` performs exactly one attempt — not
MAX_RETRIES = 3 — and raises the final regeneration error immediately. -/
theorem regenerate_noImage_one_attempt :
    regeneratePageImage (fun _ => .ok textOnlyResponse) "ある日のこと" [] .crayon =
      ⟨1, [], .error regenFinalError⟩ ∧
    (1 : Nat) ≠ MAX_RETRIES := by
  exact ⟨rfl, by decide⟩

/-- C6 amended: `regeneratePageImage` shares 4.5's image-extraction logic and
its retry policy for thrown retryable errors, but a response with no
inline-image part is not retried: the error it throws is not classified
retryable, so the final regeneration error is raised after the single first
attempt. -/
theorem regenerate_noImage_fails_immediately (oracle : Nat → ImageCallResult)
    (storyPart : String) (origs : List OriginalImage) (style : PictureBookStyle)
    (response : GenResponse)
    (h0 : oracle 0 = .ok response) (hno : extractInlineData response = none) :
    regeneratePageImage oracle storyPart origs style = ⟨1, [], .error regenFinalError⟩ := by
  have b0 : regenAttemptBody (oracle 0) = .error regenNoImageError := by
    rw [h0]
    simp [regenAttemptBody, hno]
  show (match regenAttemptBody (oracle 0) with
    | .ok url => (⟨1, [], .ok url⟩ : RunTrace String)
    | .error e =>
      if isRetryableError e = true ∧ 0 < MAX_RETRIES - 1 then
        ⟨(regenLoop oracle 1 2).attempts + 1,
          INITIAL_DELAY_MS * 2 ^ 0 :: (regenLoop oracle 1 2).sleeps,
          (regenLoop oracle 1 2).result⟩
      else ⟨1, [], .error regenFinalError⟩) = _
  simp only [b0]
  rw [if_neg (fun hc => by exact absurd hc.1 (by decide))]

/-- C6 amended witness: a response with an empty candidate list. -/
theorem regenerate_noImage_fails_immediately_witness :
    regeneratePageImage (fun _ => .ok ⟨some []⟩) "そらのたび" [] .manga =
      ⟨1, [], .error regenFinalError⟩ :=
  regenerate_noImage_fails_immediately _ _ _ _ ⟨some []⟩ rfl rfl

/-- C7: when the error's string message parses as JSON, the classifier's
verdict is exactly the loose equality `parsed?.error?.code == 503`; the
substring branch is never consulted, so a parseable message with a non-503
code yields false even if it contains "503" or "overloaded". -/
theorem isRetryable_json_path (fields : List (String × JSValue)) (msg : String) (parsed : Json)
    (hmsg : getField fields "message" = some (.str msg))
    (hparse : jsonParse msg = some parsed) :
    isRetryableError (.obj fields) =
      looseEq503 (jsOptGet (jsOptGet (some parsed) "error") "code") ∧
    (looseEq503 (jsOptGet (jsOptGet (some parsed) "error") "code") = false →
      isRetryableError (.obj fields) = false) := by
  have h : isRetryableError (.obj fields) =
      looseEq503 (jsOptGet (jsOptGet (some parsed) "error") "code") := by
    simp only [isRetryableError, hmsg, hparse]
  exact ⟨h, fun hf => h.trans hf⟩

/-- A message that is valid JSON with a non-503 code yet contains both "503"
and "overloaded" as substrings. -/
def jsonNon503Msg : String :=
  "\x7b\"error\":\x7b\"code\":500\x7d,\"note\":\"503 overloaded\"\x7d"

/-- C7 witness: the JSON path wins over the substring test on a concrete
message with code 500 containing "503 overloaded". -/
theorem isRetryable_json_path_witness :
    isRetryableError (.obj [("message", JSValue.str jsonNon503Msg)]) = false := by
  have hs : jsonParse jsonNon503Msg =
      some ((jsonParse jsonNon503Msg).get (by rfl)) := (Option.some_get _).symm
  exact (isRetryable_json_path [("message", JSValue.str jsonNon503Msg)] jsonNon503Msg
    ((jsonParse jsonNon503Msg).get (by rfl)) rfl hs).2 (by rfl)

/-- C8: a successful regeneration returns exactly
`data:<mimeType>;base64,<payload>` built from the inline image part extracted
from some attempt's response, and every page of a successful book likewise
carries a non-empty well-formed data URI built from an extracted inline
part. -/
theorem dataUri_shape :
    (∀ (oracle : Nat → ImageCallResult) storyPart origs style url,
      (regeneratePageImage oracle storyPart origs style).result = .ok url →
      ∃ a response inl, oracle a = .ok response ∧ extractInlineData response = some inl ∧
        url = "data:" ++ inl.mimeType ++ ";base64," ++ inl.data) ∧
    (∀ (so : Nat → CallResult) (io : Nat → Nat → ImageCallResult) theme files style n pages,
      (generatePictureBook so io theme files style n).result = .ok pages →
      ∀ p ∈ pages, (∃ inl : InlineData,
        p.imageUrl = "data:" ++ inl.mimeType ++ ";base64," ++ inl.data) ∧ p.imageUrl ≠ "") := by
  constructor
  · intro oracle storyPart origs style url h
    exact regenLoop_ok_shape oracle MAX_RETRIES 0 url h
  · intro so io theme files style n pages h p hp
    rcases hs : (generateStory so theme n).result with e | parts
    · rw [show (generatePictureBook so io theme files style n).result =
          (⟨(generateStory so theme n).attempts, (generateStory so theme n).sleeps,
            .error e⟩ : RunTrace (List BookPage)).result from by
          simp [generatePictureBook, hs]] at h
      simp at h
    · by_cases hz : parts.length = 0
      · have : (generatePictureBook so io theme files style n).result = .error storyGuardError := by
          simp [generatePictureBook, hs, hz]
        rw [this] at h
        simp at h
      · rcases hP : (generatePages io (filesToOriginalImages files) 0 parts).result
          with e | pages2
        · have : (generatePictureBook so io theme files style n).result = .error e := by
            simp [generatePictureBook, hs, hz, hP]
          rw [this] at h
          simp at h
        · have hres : (generatePictureBook so io theme files style n).result = .ok pages2 := by
            simp [generatePictureBook, hs, hz, hP]
          rw [hres] at h
          have hpp : pages2 = pages := by simpa using h
          subst hpp
          obtain ⟨hlen, hprops⟩ :=
            generatePages_ok_shape io (filesToOriginalImages files) parts 0 pages2 hP
          obtain ⟨k, hget⟩ := List.mem_iff_get.mp hp
          have hk2 : (k : Nat) < parts.length := by rw [← hlen]; exact k.isLt
          obtain ⟨_, _, inl, hurl⟩ := hprops k.1 k.isLt hk2
          rw [← hget]
          exact ⟨⟨inl, hurl⟩, fun hemp => mkDataUrl_ne_empty inl (hurl.symm.trans hemp)⟩

/-- C8 witness: a concrete regeneration succeeding on the first attempt. -/
theorem dataUri_shape_witness :
    ∃ a response inl, (fun (_ : Nat) => ImageCallResult.ok pngResponse) a = .ok response ∧
      extractInlineData response = some inl ∧
      "data:image/png;base64,IMG" = "data:" ++ inl.mimeType ++ ";base64," ++ inl.data :=
  dataUri_shape.1 (fun _ => .ok pngResponse) "むかしむかし" [] .fantasy
    "data:image/png;base64,IMG" rfl

/-- C9: a first call of the client accessor with an absent (or empty, hence
falsy) credential fails with the configuration error and leaves the cache
empty; a successful call caches its handle, and every later call returns that
same handle unchanged regardless of the environment — no re-read of the
configuration, no re-validation. -/
theorem getAiInstance_cache_behaviour :
    (∀ env, strOptFalsy env = true → getAiInstance none env = (.error apiKeyError, none)) ∧
    (∀ ai env inst ai2, getAiInstance ai env = (.ok inst, ai2) →
      ai2 = some inst ∧ ∀ env2, getAiInstance (some inst) env2 = (.ok inst, some inst)) := by
  constructor
  · intro env h
    simp [getAiInstance, h]
  · intro ai env inst ai2 h
    have hself : ∀ env2, getAiInstance (some inst) env2 = (.ok inst, some inst) :=
      fun _ => rfl
    refine ⟨?_, hself⟩
    cases ai with
    | some inst0 =>
      have h2 : inst0 = inst ∧ (some inst0 : Option GoogleGenAI) = ai2 := by
        simpa [getAiInstance] using h
      rw [← h2.2, h2.1]
    | none =>
      by_cases hf : strOptFalsy env = true
      · rw [show getAiInstance none env = (.error apiKeyError, none) from by
          simp [getAiInstance, hf]] at h
        simp at h
      · have h2 : (⟨env.getD ""⟩ : GoogleGenAI) = inst ∧
            (some (⟨env.getD ""⟩ : GoogleGenAI) : Option GoogleGenAI) = ai2 := by
          simpa [getAiInstance, hf] using h
        rw [← h2.2, h2.1]

/-- C9 witness: the failing first call with no credential, and the cached
handle being returned on a later call with no environment at all. -/
theorem getAiInstance_cache_behaviour_witness :
    getAiInstance none none = (.error apiKeyError, none) ∧
    getAiInstance (some ⟨"key"⟩) none = (.ok ⟨"key"⟩, some ⟨"key"⟩) :=
  ⟨getAiInstance_cache_behaviour.1 none rfl,
    (getAiInstance_cache_behaviour.2 none (some "key") ⟨"key"⟩ (some ⟨"key"⟩) rfl).2 none⟩

/-- C10: `generateStory` only ever succeeds with a non-empty part list, so
the empty-story guard in `generatePictureBook` is unreachable: the function
is extensionally equal to the variant with the guard removed. -/
theorem story_nonempty_guard_unreachable :
    (∀ (oracle : Nat → CallResult) theme n pages,
      (generateStory oracle theme n).result = .ok pages → pages ≠ []) ∧
    (∀ (so : Nat → CallResult) (io : Nat → Nat → ImageCallResult) theme files style n,
      generatePictureBook so io theme files style n =
        generatePictureBookNoGuard so io theme files style n) := by
  have h1 : ∀ (oracle : Nat → CallResult) theme n pages,
      (generateStory oracle theme n).result = .ok pages → pages ≠ [] :=
    fun oracle theme n pages h => storyLoop_ok_ne_nil oracle MAX_RETRIES 0 pages h
  refine ⟨h1, ?_⟩
  intro so io theme files style n
  simp only [generatePictureBook, generatePictureBookNoGuard]
  rcases hs : (generateStory so theme n).result with e | parts
  · rfl
  · have hnz : parts.length ≠ 0 := by
      intro hz
      exact h1 so theme n parts hs (List.length_eq_zero.mp hz)
    simp [hnz]

/-- C10 witness: a concrete successful story yields a non-empty list. -/
theorem story_nonempty_guard_unreachable_witness :
    ([Json.str "p"] : List Json) ≠ [] :=
  story_nonempty_guard_unreachable.1 (fun _ => .ok "\x7b\"pages\":[\"p\"]\x7d")
    "やまのおはなし" 1 [Json.str "p"] (by rfl)

end Gemini
